import Mathlib

/-!
Shallow embedding of the StarRocks slow-query analyzer core
(`slow_query_collector.py`, `query_analyzer.py`, `optimization_suggester.py`).

Conventions of the embedding:
* Python `float` metrics are modelled as `ℚ`; every threshold comparison in
  the source is a plain order comparison, which `ℚ` reproduces exactly.
* Python `int` metrics are modelled as `ℤ` (Python integers are unbounded).
* SQL text is a `String`, processed as its `List Char`; `str.upper()` is
  modelled for the ASCII range, which covers every keyword the rules match.
* Each `re` pattern of the source is compiled by hand into an executable
  scanner over `List Char` with the exact match semantics of the pattern
  (greedy/lazy repetition with backtracking, word boundaries, `re.IGNORECASE`
  where the source passes it).
* `f"{x:.2f}"` is modelled by `fmt2` (decimal rendering of the `ℚ` value);
  no theorem depends on the rendered digits.
-/

/-! ### Character and string utilities -/

/-- ASCII model of Python `str.upper()` applied to one character. -/
def toUpperChar (c : Char) : Char :=
  if 'a' ≤ c ∧ c ≤ 'z' then Char.ofNat (c.toNat - 32) else c

/-- ASCII model of Python `str.upper()`. -/
def upperL (l : List Char) : List Char := l.map toUpperChar

/-- Python regex `\s` on ASCII: space, tab, newline, carriage return, vertical tab, form feed. -/
def isSpaceAscii (c : Char) : Bool :=
  c = ' ' || c = '\t' || c = '\n' || c = '\r' || c = '\x0b' || c = '\x0c'

/-- Python regex `[a-zA-Z_]` (identifier start). -/
def isIdentStartChar (c : Char) : Bool :=
  ('A' ≤ c && c ≤ 'Z') || ('a' ≤ c && c ≤ 'z') || c = '_'

/-- Python regex `\w` on ASCII: `[a-zA-Z0-9_]`. -/
def isIdentChar (c : Char) : Bool :=
  isIdentStartChar c || ('0' ≤ c && c ≤ '9')

/-- Case-insensitive prefix test: `pat` (given in upper case) matched with `re.IGNORECASE`. -/
def ciPrefixOf (pat l : List Char) : Bool := pat.isPrefixOf (upperL l)

/-- Python `pat in s` (substring containment). -/
def containsSub (pat : List Char) : List Char → Bool
  | [] => pat.isPrefixOf ([] : List Char)
  | c :: rest => pat.isPrefixOf (c :: rest) || containsSub pat rest

/-- Python `str.strip()` (both ends, ASCII whitespace). -/
def pyStrip (s : String) : String :=
  String.mk (((s.data.dropWhile isSpaceAscii).reverse.dropWhile isSpaceAscii).reverse)

/-- Python `str.strip(chars)`: remove leading and trailing characters drawn from `cs`. -/
def stripCharSet (cs : List Char) (l : List Char) : List Char :=
  ((l.dropWhile (fun c => cs.contains c)).reverse.dropWhile (fun c => cs.contains c)).reverse

/-- Model of `f"{x:.2f}"` for the `ℚ` embedding of a Python float
(two decimal places, half rounded up on the magnitude).  No theorem
inspects the rendered digits. -/
def fmt2 (q : ℚ) : String :=
  let a : ℚ := |q|
  let cents : ℤ := ⌊a * 100 + 1/2⌋
  let sign := if q < 0 ∧ cents ≠ 0 then "-" else ""
  let ip := cents / 100
  let fp := cents % 100
  sign ++ toString ip ++ "." ++ (if fp < 10 then "0" else "") ++ toString fp

/-! ### Data model (`slow_query_collector.py`, `query_analyzer.py`) -/

/-- `SlowQueryInfo` dataclass of `slow_query_collector.py`. -/
structure SlowQueryInfo where
  query_id : String
  query_text : String
  database : String
  user : String
  execution_time : ℚ
  scan_rows : ℤ
  scan_bytes : ℤ
  memory_used : ℤ
  cpu_time : ℚ
  start_time : ℤ
  end_time : ℤ
  peak_memory : ℤ := 0
  rows_returned : ℤ := 0

/-- Property `SlowQueryInfo.execution_time_ms`. -/
def SlowQueryInfo.execution_time_ms (r : SlowQueryInfo) : ℚ := r.execution_time * 1000

/-- Property `SlowQueryInfo.scan_rows_formatted`. -/
def SlowQueryInfo.scan_rows_formatted (r : SlowQueryInfo) : String :=
  if r.scan_rows ≥ 100000000 then fmt2 ((r.scan_rows : ℚ) / 100000000) ++ " 亿"
  else if r.scan_rows ≥ 10000 then fmt2 ((r.scan_rows : ℚ) / 10000) ++ " 万"
  else toString r.scan_rows

/-- Property `SlowQueryInfo.scan_bytes_formatted`. -/
def SlowQueryInfo.scan_bytes_formatted (r : SlowQueryInfo) : String :=
  if r.scan_bytes ≥ 1073741824 then fmt2 ((r.scan_bytes : ℚ) / 1073741824) ++ " GB"
  else if r.scan_bytes ≥ 1048576 then fmt2 ((r.scan_bytes : ℚ) / 1048576) ++ " MB"
  else if r.scan_bytes ≥ 1024 then fmt2 ((r.scan_bytes : ℚ) / 1024) ++ " KB"
  else toString r.scan_bytes ++ " B"

/-- Property `SlowQueryInfo.severity`: overall severity bucketed by execution time. -/
def SlowQueryInfo.severity (r : SlowQueryInfo) : String :=
  if r.execution_time ≥ 10 then "CRITICAL"
  else if r.execution_time ≥ 5 then "HIGH"
  else if r.execution_time ≥ 1 then "MEDIUM"
  else "LOW"

/-- `ProblemType` enum of `query_analyzer.py`. -/
inductive ProblemType where
  | FULL_TABLE_SCAN
  | NO_INDEX
  | TOO_MANY_ROWS
  | MEMORY_INTENSIVE
  | JOIN_INEFFICIENT
  | SUBQUERY_INEFFICIENT
  | ORDERBY_EXPENSIVE
  | GROUPBY_EXPENSIVE
  | LARGE_RESULT_SET
  | NO_WHERE_CLAUSE
  | SELECT_STAR
  | OR_CONDITION
  | LIKE_PREFIX_WILDCARD
  | FUNCTION_IN_WHERE
deriving DecidableEq, Repr

/-- Python `Enum.name` of `ProblemType` (the member identifier, used for dispatch). -/
def ProblemType.name : ProblemType → String
  | .FULL_TABLE_SCAN => "FULL_TABLE_SCAN"
  | .NO_INDEX => "NO_INDEX"
  | .TOO_MANY_ROWS => "TOO_MANY_ROWS"
  | .MEMORY_INTENSIVE => "MEMORY_INTENSIVE"
  | .JOIN_INEFFICIENT => "JOIN_INEFFICIENT"
  | .SUBQUERY_INEFFICIENT => "SUBQUERY_INEFFICIENT"
  | .ORDERBY_EXPENSIVE => "ORDERBY_EXPENSIVE"
  | .GROUPBY_EXPENSIVE => "GROUPBY_EXPENSIVE"
  | .LARGE_RESULT_SET => "LARGE_RESULT_SET"
  | .NO_WHERE_CLAUSE => "NO_WHERE_CLAUSE"
  | .SELECT_STAR => "SELECT_STAR"
  | .OR_CONDITION => "OR_CONDITION"
  | .LIKE_PREFIX_WILDCARD => "LIKE_PREFIX_WILDCARD"
  | .FUNCTION_IN_WHERE => "FUNCTION_IN_WHERE"

/-- `QueryProblem` dataclass of `query_analyzer.py`. -/
structure QueryProblem where
  problem_type : ProblemType
  severity : String
  description : String
  suggestion : String
  evidence : String
deriving DecidableEq, Repr

/-- Analyzer thresholds read from the `config` dict in `QueryAnalyzer.__init__`. -/
structure Thresholds where
  max_scan_rows : ℤ := 10000000
  max_scan_bytes : ℤ := 1073741824

/-- Defaults of `config.get('max_scan_rows', 10000000)` / `config.get('max_scan_bytes', 1073741824)`. -/
def defaultThresholds : Thresholds := {}

/-! ### Regex scanners used by `QueryAnalyzer._analyze_sql_structure`

The SQL text is upper-cased by the source before any pattern is applied,
so these scanners (except where noted) run over the upper-cased text. -/

/-- One position of `re.search(r'\bOR\b', sql)`: literal `OR` with word
boundaries; `prev` is the character before the current position. -/
def orTokenAt (prev : Option Char) (l : List Char) : Bool :=
  match l with
  | 'O' :: 'R' :: rest =>
    (match prev with | none => true | some pc => !isIdentChar pc) &&
    (match rest with | [] => true | c :: _ => !isIdentChar c)
  | _ => false

/-- `re.search(r'\bOR\b', sql)` as a left-to-right scan. -/
def hasOrToken (prev : Option Char) : List Char → Bool
  | [] => false
  | c :: rest => orTokenAt prev (c :: rest) || hasOrToken (some c) rest

/-- One position of `re.search(r'LIKE\s+[\'"]%[^%]', sql)`: the greedy `\s+`
must end at the quote since a quote is not whitespace. -/
def likeWildAt (l : List Char) : Bool :=
  if ("LIKE".data).isPrefixOf l then
    let rest := l.drop 4
    let ws := rest.takeWhile isSpaceAscii
    let r2 := rest.dropWhile isSpaceAscii
    !ws.isEmpty &&
      (match r2 with
       | q :: '%' :: c :: _ => (q = '\'' || q = '"') && c ≠ '%'
       | _ => false)
  else false

/-- `re.search(r'LIKE\s+[\'"]%[^%]', sql)` as a scan. -/
def hasLikeWild : List Char → Bool
  | [] => false
  | c :: rest => likeWildAt (c :: rest) || hasLikeWild rest

/-- One position of `re.search(r'WHERE\s+([^;]+)', sql)`: returns the captured
group.  Greedy `\s+` takes the maximal whitespace run; if nothing non-`;`
follows, the engine backtracks one whitespace character into the capture. -/
def whereCapAt (l : List Char) : Option (List Char) :=
  if ("WHERE".data).isPrefixOf l then
    let rest := l.drop 5
    let ws := rest.takeWhile isSpaceAscii
    let r2 := rest.dropWhile isSpaceAscii
    if ws.isEmpty then none
    else
      let cap := r2.takeWhile (fun c => c ≠ ';')
      if !cap.isEmpty then some cap
      else if ws.length ≥ 2 then some [ws.getLastD ' ']
      else none
  else none

/-- `re.search(r'WHERE\s+([^;]+)', sql)`: first match, captured group. -/
def whereCap : List Char → Option (List Char)
  | [] => none
  | c :: rest =>
    match whereCapAt (c :: rest) with
    | some cap => some cap
    | none => whereCap rest

/-- One position of `re.search(r'[A-Z_]+\([^)]+\)', clause)`: it suffices that
the character right before a `(` is in `[A-Z_]` and that the first `)` after
the `(` is preceded by at least one character. -/
def funcCallAt : List Char → Bool
  | c :: '(' :: rest =>
    (('A' ≤ c && c ≤ 'Z') || c = '_') &&
      (match rest with
       | [] => false
       | x :: rest2 => x ≠ ')' && rest2.contains ')')
  | _ => false

/-- `re.search(r'[A-Z_]+\([^)]+\)', clause)` as a scan. -/
def hasFuncCall : List Char → Bool
  | [] => false
  | c :: rest => funcCallAt (c :: rest) || hasFuncCall rest

/-- `re.search(r'(COUNT|SUM|AVG|MAX|MIN)\(', sql)`: one of five literal substrings. -/
def hasAggCall (u : List Char) : Bool :=
  containsSub "COUNT(".data u || containsSub "SUM(".data u ||
  containsSub "AVG(".data u || containsSub "MAX(".data u || containsSub "MIN(".data u

/-- Scan for the `SELECT` literal of `FROM\s*\([^)]+SELECT` after at least one
non-`)` character has been consumed by `[^)]+`. -/
def selAfterFill : List Char → Bool
  | [] => false
  | c :: rest => ("SELECT".data).isPrefixOf (c :: rest) || (c ≠ ')' && selAfterFill rest)

/-- One position of `re.search(r'FROM\s*\([^)]+SELECT', sql)`: after `FROM` and
the maximal whitespace run the next character must be `(` (whitespace cannot
match `\(`), then `[^)]+` must consume at least one character before `SELECT`. -/
def subqueryAt (l : List Char) : Bool :=
  if ("FROM".data).isPrefixOf l then
    match (l.drop 4).dropWhile isSpaceAscii with
    | '(' :: c :: rest => c ≠ ')' && selAfterFill rest
    | _ => false
  else false

/-- `re.search(r'FROM\s*\([^)]+SELECT', sql, re.IGNORECASE)` as a scan (the
flag is redundant: the source applies it to already upper-cased text). -/
def hasSubquery : List Char → Bool
  | [] => false
  | c :: rest => subqueryAt (c :: rest) || hasSubquery rest

/-! ### `QueryAnalyzer` detection passes -/

/-- `QueryAnalyzer._analyze_execution_time`. -/
def analyze_execution_time (r : SlowQueryInfo) : List QueryProblem :=
  if r.execution_time ≥ 10 then
    [{ problem_type := .FULL_TABLE_SCAN, severity := "CRITICAL",
       description := "查询执行时间过长: " ++ fmt2 r.execution_time ++ " 秒",
       suggestion := "检查是否有全表扫描，考虑添加索引或优化查询逻辑",
       evidence := "执行时间: " ++ fmt2 r.execution_time ++ "s" }]
  else if r.execution_time ≥ 5 then
    [{ problem_type := .FULL_TABLE_SCAN, severity := "HIGH",
       description := "查询执行时间较长: " ++ fmt2 r.execution_time ++ " 秒",
       suggestion := "分析查询计划，检查是否需要优化",
       evidence := "执行时间: " ++ fmt2 r.execution_time ++ "s" }]
  else []

/-- `QueryAnalyzer._analyze_scan_data`. -/
def analyze_scan_data (cfg : Thresholds) (r : SlowQueryInfo) : List QueryProblem :=
  (if r.scan_rows > cfg.max_scan_rows then
    [{ problem_type := .TOO_MANY_ROWS, severity := "HIGH",
       description := "扫描行数过多: " ++ r.scan_rows_formatted,
       suggestion := "考虑添加合适的 WHERE 条件或索引，减少扫描行数",
       evidence := "扫描行数: " ++ toString r.scan_rows }]
   else []) ++
  (if r.scan_bytes > cfg.max_scan_bytes then
    [{ problem_type := .TOO_MANY_ROWS, severity := "HIGH",
       description := "扫描数据量过大: " ++ r.scan_bytes_formatted,
       suggestion := "只查询需要的列，避免 SELECT *，考虑分区裁剪",
       evidence := "扫描字节数: " ++ toString r.scan_bytes }]
   else []) ++
  (if r.memory_used > 536870912 then
    [{ problem_type := .MEMORY_INTENSIVE, severity := "MEDIUM",
       description := "内存使用较高: " ++ fmt2 ((r.memory_used : ℚ) / 1048576) ++ " MB",
       suggestion := "考虑增加内存限制、优化查询或调整执行引擎参数",
       evidence := "内存使用: " ++ fmt2 ((r.memory_used : ℚ) / 1048576) ++ " MB" }]
   else [])

/-- `QueryAnalyzer._analyze_sql_structure`.  The source upper-cases the text,
then runs `sqlparse.parse(text)[0]` inside a `try`: on empty text `parse`
yields no statements, the subscript raises `IndexError`, and the `except`
returns the (still empty) problem list.  On non-empty text the six lexical
checks run in order. -/
def analyze_sql_structure (s : String) : List QueryProblem :=
  let u := upperL s.data
  if s.data.isEmpty then []
  else
    (if containsSub "SELECT *".data u then
      [{ problem_type := .SELECT_STAR, severity := "MEDIUM",
         description := "使用 SELECT * 可能会返回不必要的列",
         suggestion := "明确指定需要的列，减少数据传输和内存使用",
         evidence := "SELECT *" }]
     else []) ++
    (if hasOrToken none u && containsSub "WHERE".data u then
      [{ problem_type := .OR_CONDITION, severity := "LOW",
         description := "使用 OR 条件可能导致索引失效",
         suggestion := "考虑使用 UNION ALL 代替 OR，或优化查询逻辑",
         evidence := "发现 OR 条件" }]
     else []) ++
    (if hasLikeWild u then
      [{ problem_type := .LIKE_PREFIX_WILDCARD, severity := "HIGH",
         description := "LIKE 使用前缀通配符 %... 无法使用索引",
         suggestion := "避免前缀通配符，考虑使用全文索引或倒排索引",
         evidence := "LIKE '%...'" }]
     else []) ++
    (match whereCap u with
     | some clause =>
       if hasFuncCall clause then
         [{ problem_type := .FUNCTION_IN_WHERE, severity := "MEDIUM",
            description := "WHERE 子句中使用函数可能导致索引失效",
            suggestion := "将函数移到比较符号的另一侧，或使用计算列索引",
            evidence := "WHERE 子句包含函数" }]
       else []
     | none => []) ++
    (if ("SELECT".data).isPrefixOf u && !containsSub "WHERE".data u &&
        !containsSub "JOIN".data u && !hasAggCall u then
      [{ problem_type := .NO_WHERE_CLAUSE, severity := "HIGH",
         description := "SELECT 查询缺少 WHERE 条件",
         suggestion := "添加 WHERE 条件限制数据范围，避免全表扫描",
         evidence := "缺少 WHERE 条件" }]
     else []) ++
    (if hasSubquery u then
      [{ problem_type := .SUBQUERY_INEFFICIENT, severity := "MEDIUM",
         description := "发现子查询，可能影响性能",
         suggestion := "考虑使用 CTE (WITH 子句) 或 JOIN 替代子查询",
         evidence := "发现子查询" }]
     else [])

/-- `QueryAnalyzer._analyze_execution_plan` (plan modelled by the string
`str(execution_plan)` of a truthy plan). -/
def analyze_execution_plan (plan : String) : List QueryProblem :=
  let pu := upperL plan.data
  if containsSub "OLAP_SCAN".data pu || containsSub "FULL_SCAN".data pu then
    [{ problem_type := .FULL_TABLE_SCAN, severity := "MEDIUM",
       description := "执行计划显示可能存在全表扫描",
       suggestion := "检查是否可以利用索引或分区裁剪",
       evidence := "执行计划包含全表扫描" }]
  else []

/-- `QueryAnalyzer.analyze_query`: the four passes concatenated in source
order; `plan = none` models a `None` (or empty, hence falsy) execution plan. -/
def analyze_query (cfg : Thresholds) (r : SlowQueryInfo) (plan : Option String) :
    List QueryProblem :=
  analyze_execution_time r ++ analyze_scan_data cfg r ++
  analyze_sql_structure r.query_text ++
  (match plan with
   | some p => analyze_execution_plan p
   | none => [])

/-! ### Regex scanners used by `OptimizationSuggester` (case-insensitive,
running over the original-case SQL text) -/

/-- One position of `re.search(r'WHERE\s+([^;]+)', sql, re.IGNORECASE)`
(capture kept in original case). -/
def whereCapCIAt (l : List Char) : Option (List Char) :=
  if ciPrefixOf "WHERE".data l then
    let rest := l.drop 5
    let ws := rest.takeWhile isSpaceAscii
    let r2 := rest.dropWhile isSpaceAscii
    if ws.isEmpty then none
    else
      let cap := r2.takeWhile (fun c => c ≠ ';')
      if !cap.isEmpty then some cap
      else if ws.length ≥ 2 then some [ws.getLastD ' ']
      else none
  else none

/-- `re.search(r'WHERE\s+([^;]+)', sql, re.IGNORECASE)`: first match, capture. -/
def whereCapCI : List Char → Option (List Char)
  | [] => none
  | c :: rest =>
    match whereCapCIAt (c :: rest) with
    | some cap => some cap
    | none => whereCapCI rest

/-- `re.split(r'ORDER BY|GROUP BY', clause, flags=re.IGNORECASE)[0]`:
the prefix up to the leftmost occurrence of either literal. -/
def splitOrderGroup : List Char → List Char
  | [] => []
  | c :: rest =>
    if ciPrefixOf "ORDER BY".data (c :: rest) || ciPrefixOf "GROUP BY".data (c :: rest) then []
    else c :: splitOrderGroup rest

/-- `re.findall(r'\b([a-zA-Z_][a-zA-Z0-9_]*)\s*[=<>!]', clause)`.
`prev` is the character before the scan position (for `\b`); fuel bounds the
recursion and is initialised with the input length (each step consumes at
least one character). -/
def whereColsF : Nat → Option Char → List Char → List String
  | 0, _, _ => []
  | _ + 1, _, [] => []
  | f + 1, prev, c :: rest =>
    let boundary := match prev with | none => true | some pc => !isIdentChar pc
    if boundary && isIdentStartChar c then
      let identTail := rest.takeWhile isIdentChar
      let after := rest.dropWhile isIdentChar
      let after2 := after.dropWhile isSpaceAscii
      match after2 with
      | op :: rest2 =>
        if op = '=' || op = '<' || op = '>' || op = '!' then
          String.mk (c :: identTail) :: whereColsF f (some op) rest2
        else whereColsF f (some ((c :: identTail).getLastD c)) after
      | [] => []
    else whereColsF f (some c) rest

/-- `re.findall(r'\b([a-zA-Z_][a-zA-Z0-9_]*)\b', text)`: every maximal
word-character run whose first character is a letter or underscore. -/
def identsAllF : Nat → Option Char → List Char → List String
  | 0, _, _ => []
  | _ + 1, _, [] => []
  | f + 1, prev, c :: rest =>
    let boundary := match prev with | none => true | some pc => !isIdentChar pc
    if boundary && isIdentStartChar c then
      let identTail := rest.takeWhile isIdentChar
      let after := rest.dropWhile isIdentChar
      String.mk (c :: identTail) :: identsAllF f (some ((c :: identTail).getLastD c)) after
    else identsAllF f (some c) rest

/-- One position of `re.search(r'ORDER BY\s+([^;]+)', sql, re.IGNORECASE)`. -/
def orderCapAt (l : List Char) : Option (List Char) :=
  if ciPrefixOf "ORDER BY".data l then
    let rest := l.drop 8
    let ws := rest.takeWhile isSpaceAscii
    let r2 := rest.dropWhile isSpaceAscii
    if ws.isEmpty then none
    else
      let cap := r2.takeWhile (fun c => c ≠ ';')
      if !cap.isEmpty then some cap
      else if ws.length ≥ 2 then some [ws.getLastD ' ']
      else none
  else none

/-- `re.search(r'ORDER BY\s+([^;]+)', sql, re.IGNORECASE)`: first match, capture. -/
def orderCap : List Char → Option (List Char)
  | [] => none
  | c :: rest =>
    match orderCapAt (c :: rest) with
    | some cap => some cap
    | none => orderCap rest

/-- Terminator alternation `(?:JOIN|WHERE|GROUP BY|ORDER BY|$)` of the JOIN
column pattern: returns the matched length, tried in source order. -/
def joinTermLen (l : List Char) : Option Nat :=
  if ciPrefixOf "JOIN".data l then some 4
  else if ciPrefixOf "WHERE".data l then some 5
  else if ciPrefixOf "GROUP BY".data l then some 8
  else if ciPrefixOf "ORDER BY".data l then some 8
  else if l.isEmpty then some 0
  else none

/-- Lazy `[^;]+?` before the terminator: `acc` is the reversed capture so far
(at least one character), the terminator is tried before each extension. -/
def lazyCapLoopF : Nat → List Char → List Char → Option (List Char × List Char)
  | 0, _, _ => none
  | f + 1, acc, l =>
    match joinTermLen l with
    | some k => some (acc.reverse, l.drop k)
    | none =>
      match l with
      | [] => none
      | c :: rest => if c = ';' then none else lazyCapLoopF f (c :: acc) rest

/-- `re.findall(r'ON\s+([^;]+?)(?:JOIN|WHERE|GROUP BY|ORDER BY|$)', sql,
re.IGNORECASE)`, each capture already broken into its identifiers
(`re.findall(r'\b([a-zA-Z_][a-zA-Z0-9_]*)\b', match)` in the source loop). -/
def joinColsScanF : Nat → List Char → List String
  | 0, _ => []
  | _ + 1, [] => []
  | f + 1, c :: rest =>
    if ciPrefixOf "ON".data (c :: rest) then
      let r1 := (c :: rest).drop 2
      let ws := r1.takeWhile isSpaceAscii
      let r2 := r1.dropWhile isSpaceAscii
      if ws.isEmpty then joinColsScanF f rest
      else
        match (match r2 with
               | c0 :: rest0 => if c0 = ';' then none else lazyCapLoopF (rest0.length + 1) [c0] rest0
               | [] => none) with
        | some (cap, rem) => identsAllF cap.length none cap ++ joinColsScanF f rem
        | none => joinColsScanF f rest
    else joinColsScanF f rest

/-- `re.findall(rf'{keyword}\s+([^\s,;]+)', sql, re.IGNORECASE)` for one keyword. -/
def keywordCapScanF (kw : List Char) : Nat → List Char → List String
  | 0, _ => []
  | _ + 1, [] => []
  | f + 1, c :: rest =>
    if ciPrefixOf kw (c :: rest) then
      let r1 := (c :: rest).drop kw.length
      let ws := r1.takeWhile isSpaceAscii
      let r2 := r1.dropWhile isSpaceAscii
      if ws.isEmpty then keywordCapScanF kw f rest
      else
        let cap := r2.takeWhile (fun c2 => !isSpaceAscii c2 && c2 ≠ ',' && c2 ≠ ';')
        if cap.isEmpty then keywordCapScanF kw f rest
        else String.mk cap :: keywordCapScanF kw f (r2.drop cap.length)
    else keywordCapScanF kw f rest

/-- Order-deterministic model of Python `list(set(xs))` (first occurrences
kept).  Python's set iteration order is unspecified; no theorem depends on
the order or multiplicity of the deduplicated lists. -/
def dedupKeepFirstF : Nat → List String → List String
  | 0, _ => []
  | _ + 1, [] => []
  | f + 1, x :: rest => x :: dedupKeepFirstF f (rest.filter (fun y => !(y == x)))

/-- `list(set(xs))`, see `dedupKeepFirstF`. -/
def dedupKeepFirst (xs : List String) : List String := dedupKeepFirstF xs.length xs

/-! ### `OptimizationSuggester` -/

/-- `OptimizationSuggestion` dataclass of `optimization_suggester.py`. -/
structure OptimizationSuggestion where
  title : String
  description : String
  priority : String
  category : String
  original_sql : String
  suggested_sql : Option String := none
  estimated_improvement : Option String := none
  implementation_notes : Option String := none
deriving DecidableEq, Repr

/-- `OptimizationSuggester._extract_where_columns`. -/
def extract_where_columns (sql : String) : List String :=
  match whereCapCI sql.data with
  | none => []
  | some clause =>
    let clause2 := splitOrderGroup clause
    whereColsF clause2.length none clause2

/-- `OptimizationSuggester._extract_order_columns`. -/
def extract_order_columns (sql : String) : List String :=
  match orderCap sql.data with
  | none => []
  | some clause => identsAllF clause.length none clause

/-- `OptimizationSuggester._extract_join_columns`. -/
def extract_join_columns (sql : String) : List String :=
  joinColsScanF sql.data.length sql.data

/-- `OptimizationSuggester._extract_table_names`. -/
def extract_table_names (sql : String) : List String :=
  let kws : List (List Char) :=
    ["FROM".data, "JOIN".data, "INTO".data, "UPDATE".data, "TABLE".data]
  let raw := kws.foldl (fun acc kw =>
    acc ++ ((keywordCapScanF kw sql.data.length sql.data).filterMap (fun m =>
      let t := String.mk (stripCharSet ['`', '"', '[', ']'] m.data)
      if t ≠ "" && !(["WHERE", "ON", "SELECT", "AS"].contains (String.mk (upperL t.data)))
      then some t else none))) []
  dedupKeepFirst raw

/-- `OptimizationSuggester._suggest_index_optimization`. -/
def suggest_index_optimization (r : SlowQueryInfo) (_p : QueryProblem) :
    OptimizationSuggestion :=
  let sql := r.query_text
  let columns0 := dedupKeepFirst
    (extract_where_columns sql ++ extract_order_columns sql ++ extract_join_columns sql)
  let columns := if columns0.isEmpty then ["相关列"] else columns0
  let index_create :=
    "\n-- 为表添加索引建议\nCREATE INDEX idx_optimization ON your_table (" ++
    String.intercalate ", " columns ++ ");\n"
  { title := "添加索引优化查询",
    description := "查询执行时间过长（" ++ fmt2 r.execution_time ++ "s），建议为相关列添加索引",
    priority := "HIGH",
    category := "INDEX",
    original_sql := sql,
    suggested_sql := some (pyStrip index_create),
    estimated_improvement := some "预计可提升 50%-90% 的查询性能",
    implementation_notes := some ("1. 确认 " ++ String.intercalate ", " columns ++
      " 列的选择性\n2. 考虑创建复合索引\n3. 分析索引的使用频率") }

/-- `OptimizationSuggester._suggest_specific_columns`. -/
def suggest_specific_columns (r : SlowQueryInfo) (_p : QueryProblem) :
    OptimizationSuggestion :=
  let sql := r.query_text
  let suggested :=
    match extract_table_names sql with
    | t :: _ => "-- 建议指定具体列名\nSELECT col1, col2, col3 FROM " ++ t ++ " WHERE ...;"
    | [] => "-- 建议指定具体列名\nSELECT col1, col2, col3 FROM your_table WHERE ...;"
  { title := "避免使用 SELECT *",
    description := "SELECT * 会返回所有列，增加 I/O 和网络传输开销",
    priority := "MEDIUM",
    category := "QUERY",
    original_sql := sql,
    suggested_sql := some (pyStrip suggested),
    estimated_improvement := some "减少 30%-70% 的数据传输量",
    implementation_notes := some "1. 只选择需要的列\n2. 避免返回大字段（如 TEXT/BLOB）\n3. 可以减少内存使用" }

/-- One position of `re.sub(r"LIKE\s+['\"]%", "LIKE '", sql, flags=re.IGNORECASE)`:
on a match, returns the remainder after the matched region. -/
def matchLikeSubAt (l : List Char) : Option (List Char) :=
  if ciPrefixOf "LIKE".data l then
    let rest := l.drop 4
    let ws := rest.takeWhile isSpaceAscii
    let r2 := rest.dropWhile isSpaceAscii
    if ws.isEmpty then none
    else
      match r2 with
      | q :: '%' :: r3 => if q = '\'' || q = '"' then some r3 else none
      | _ => none
  else none

/-- `re.sub(r"LIKE\s+['\"]%", "LIKE '", sql, flags=re.IGNORECASE)`: every
non-overlapping match replaced, scanning left to right. -/
def likeSubF : Nat → List Char → List Char
  | 0, l => l
  | _ + 1, [] => []
  | f + 1, c :: rest =>
    match matchLikeSubAt (c :: rest) with
    | some r3 => "LIKE '".data ++ likeSubF f r3
    | none => c :: likeSubF f rest

/-- Entry point of the `re.sub` model (fuel initialised with the length). -/
def likeSub (l : List Char) : List Char := likeSubF l.length l

/-- `OptimizationSuggester._suggest_like_optimization`. -/
def suggest_like_optimization (r : SlowQueryInfo) (_p : QueryProblem) :
    OptimizationSuggestion :=
  let sql := r.query_text
  { title := "优化 LIKE 查询",
    description := "LIKE 使用前缀通配符（%xxx）无法使用索引",
    priority := "HIGH",
    category := "QUERY",
    original_sql := sql,
    suggested_sql := some (String.mk (likeSub sql.data)),
    estimated_improvement := some "索引命中率从 0% 提升到接近 100%",
    implementation_notes := some "1. 使用后缀通配符（xxx%）\n2. 或者考虑全文索引\n3. 或者使用倒排索引" }

/-- `OptimizationSuggester._suggest_or_replacement`. -/
def suggest_or_replacement (r : SlowQueryInfo) (_p : QueryProblem) :
    OptimizationSuggestion :=
  { title := "用 UNION ALL 替代 OR",
    description := "OR 条件可能导致索引失效，使用 UNION ALL 可能更高效",
    priority := "LOW",
    category := "QUERY",
    original_sql := r.query_text,
    suggested_sql := some (pyStrip ("-- 建议使用 UNION ALL 替代 OR\nSELECT * FROM table1 WHERE condition1\nUNION ALL\nSELECT * FROM table1 WHERE condition2;\n")),
    estimated_improvement := some "索引命中率可能提升 20%-50%",
    implementation_notes := some "1. 测试两种方式的性能\n2. 确保条件互斥时使用 UNION ALL\n3. 条件可能重叠时使用 UNION" }

/-- `OptimizationSuggester._suggest_function_optimization`. -/
def suggest_function_optimization (r : SlowQueryInfo) (_p : QueryProblem) :
    OptimizationSuggestion :=
  { title := "避免 WHERE 子句中使用函数",
    description := "函数会阻止索引使用，建议改写查询逻辑",
    priority := "MEDIUM",
    category := "QUERY",
    original_sql := r.query_text,
    suggested_sql := some (pyStrip ("-- 示例：将函数移到比较符号另一侧\n-- 原始: WHERE YEAR(created_at) = 2023\n-- 优化: WHERE created_at >= '2023-01-01' AND created_at < '2024-01-01'\n")),
    estimated_improvement := some "索引命中率可从 0% 提升到 100%",
    implementation_notes := some "1. 将函数应用到常量上\n2. 使用范围查询代替函数\n3. 考虑创建计算列索引" }

/-- `OptimizationSuggester._suggest_row_reduction`. -/
def suggest_row_reduction (r : SlowQueryInfo) (_p : QueryProblem) :
    OptimizationSuggestion :=
  { title := "减少扫描行数",
    description := "当前扫描 " ++ r.scan_rows_formatted ++ " 行，远超建议阈值",
    priority := "HIGH",
    category := "QUERY",
    original_sql := r.query_text,
    suggested_sql := some (pyStrip ("-- 建议优化查询减少扫描行数\n-- 当前扫描行数: " ++ r.scan_rows_formatted ++ "\n\n1. 添加更精确的 WHERE 条件\n2. 利用分区裁剪\n3. 使用索引覆盖\n4. 考虑数据分区策略\n")),
    estimated_improvement := some "可减少 50%-99% 的扫描行数",
    implementation_notes := some "1. 分析查询计划确定瓶颈\n2. 添加合适的 WHERE 条件\n3. 创建复合索引" }

/-- `OptimizationSuggester._suggest_cte_or_join`. -/
def suggest_cte_or_join (r : SlowQueryInfo) (_p : QueryProblem) :
    OptimizationSuggestion :=
  { title := "优化子查询为 CTE 或 JOIN",
    description := "子查询可能导致性能问题，考虑使用 CTE 或 JOIN",
    priority := "MEDIUM",
    category := "QUERY",
    original_sql := r.query_text,
    suggested_sql := some (pyStrip ("-- 建议使用 CTE (WITH 子句) 或 JOIN\n-- CTE 示例:\nWITH cte1 AS (\n    SELECT ... FROM table1 WHERE ...\n),\ncte2 AS (\n    SELECT ... FROM table2 WHERE ...\n)\nSELECT ... FROM cte1 JOIN cte2 ON ...;\n")),
    estimated_improvement := some "预计提升 20%-60% 的性能",
    implementation_notes := some "1. 评估子查询是否可转为 JOIN\n2. 使用 CTE 提高可读性\n3. 测试优化前后性能" }

/-- `OptimizationSuggester._generate_suggestion_for_problem`: dispatch on the
enum member name, exactly as the source compares `problem_type.name` strings. -/
def generate_suggestion_for_problem (r : SlowQueryInfo) (p : QueryProblem) :
    Option OptimizationSuggestion :=
  if p.problem_type.name = "FULL_TABLE_SCAN" then some (suggest_index_optimization r p)
  else if p.problem_type.name = "SELECT_STAR" then some (suggest_specific_columns r p)
  else if p.problem_type.name = "LIKE_PREFIX_WILDCARD" then some (suggest_like_optimization r p)
  else if p.problem_type.name = "OR_CONDITION" then some (suggest_or_replacement r p)
  else if p.problem_type.name = "FUNCTION_IN_WHERE" then some (suggest_function_optimization r p)
  else if p.problem_type.name = "TOO_MANY_ROWS" then some (suggest_row_reduction r p)
  else if p.problem_type.name = "SUBQUERY_INEFFICIENT" then some (suggest_cte_or_join r p)
  else none

/-- `OptimizationSuggester.generate_suggestions`: the loop appends the
per-problem suggestion whenever one is produced. -/
def generate_suggestions (r : SlowQueryInfo) (problems : List QueryProblem) :
    List OptimizationSuggestion :=
  problems.filterMap (fun p => generate_suggestion_for_problem r p)

/-! ### Dynamically-typed query record

The `SlowQueryInfo` dataclass annotates `query_text: str`, but Python does
not enforce the annotation.  `SlowQueryInfoN` keeps `query_text` nullable:
`_analyze_sql_structure` evaluates `query_info.query_text.upper()` on its
first line, *before* its `try` block, so a `None` text raises
`AttributeError` out of `analyze_query`; any actual string makes every pass
total. -/

/-- `SlowQueryInfo` with the nullable `query_text` a dynamically-typed caller
can supply (`None` modelled as `none`). -/
structure SlowQueryInfoN where
  query_id : String
  query_text : Option String
  database : String
  user : String
  execution_time : ℚ
  scan_rows : ℤ
  scan_bytes : ℤ
  memory_used : ℤ
  cpu_time : ℚ
  start_time : ℤ
  end_time : ℤ
  peak_memory : ℤ := 0
  rows_returned : ℤ := 0

/-- The Python exception escaping the detector on a `None` SQL text. -/
inductive PyExc where
  | attributeError
deriving DecidableEq, Repr

/-- The record seen by the analyzer once `query_text` is known to be a string. -/
def SlowQueryInfoN.withText (r : SlowQueryInfoN) (s : String) : SlowQueryInfo :=
  { query_id := r.query_id, query_text := s, database := r.database, user := r.user,
    execution_time := r.execution_time, scan_rows := r.scan_rows,
    scan_bytes := r.scan_bytes, memory_used := r.memory_used, cpu_time := r.cpu_time,
    start_time := r.start_time, end_time := r.end_time, peak_memory := r.peak_memory,
    rows_returned := r.rows_returned }

/-- `QueryAnalyzer.analyze_query` on a dynamically-typed record:
`query_text = None` hits `None.upper()` in `_analyze_sql_structure` (line
before the `try`) and the `AttributeError` propagates; the problems already
collected by passes 1–2 are discarded with the stack unwind. -/
def analyze_queryN (cfg : Thresholds) (r : SlowQueryInfoN) (plan : Option String) :
    Except PyExc (List QueryProblem) :=
  match r.query_text with
  | none => .error .attributeError
  | some s => .ok (analyze_query cfg (r.withText s) plan)

/-! ### The suggester's per-type mapping domain -/

/-- The problem types for which `_generate_suggestion_for_problem` has a
dispatch branch (every other type falls through to `return None`). -/
def recognized_types : List ProblemType :=
  [.FULL_TABLE_SCAN, .SELECT_STAR, .LIKE_PREFIX_WILDCARD, .OR_CONDITION,
   .FUNCTION_IN_WHERE, .TOO_MANY_ROWS, .SUBQUERY_INEFFICIENT]

/-- Boolean membership in `recognized_types`. -/
def recognizedB (t : ProblemType) : Bool := decide (t ∈ recognized_types)

/-- The suggestion category each recognized problem type is mapped to
(`FULL_TABLE_SCAN` → INDEX, the six others → QUERY). -/
def categoryFor : ProblemType → String
  | .FULL_TABLE_SCAN => "INDEX"
  | _ => "QUERY"

/-! ### Concrete records used by witnesses and counterexamples -/

/-- A concrete record with staged execution time and innocuous SQL. -/
def sampleRecord (t : ℚ) : SlowQueryInfo :=
  { query_id := "q", query_text := "SELECT 1", database := "db", user := "u",
    execution_time := t, scan_rows := 0, scan_bytes := 0, memory_used := 0,
    cpu_time := 0, start_time := 0, end_time := 0 }

/-- Record whose byte volume (2 GiB) exceeds the default `max_scan_bytes`
while its row count does not exceed `max_scan_rows`. -/
def scanBytesRecord : SlowQueryInfo := { sampleRecord 0 with scan_bytes := 2147483648 }

/-- Record whose row count exceeds the default `max_scan_rows`. -/
def scanRowsRecord : SlowQueryInfo := { sampleRecord 0 with scan_rows := 20000000 }

/-- The canonical nested-subquery SQL, with `SELECT` directly after the `(`. -/
def subqNoSpaceRecord : SlowQueryInfo :=
  { sampleRecord 0 with query_text := "SELECT * FROM (SELECT id FROM orders) t" }

/-- Nested-subquery SQL with a space between the `(` and `SELECT`. -/
def subqSpacedRecord : SlowQueryInfo :=
  { sampleRecord 0 with query_text := "SELECT * FROM ( SELECT id FROM orders) t" }

/-- A SELECT with neither WHERE/JOIN nor aggregate call. -/
def noWhereRecord : SlowQueryInfo :=
  { sampleRecord 0 with query_text := "SELECT name FROM customers" }

/-- The same shape wrapped in a COUNT aggregate. -/
def aggRecord : SlowQueryInfo :=
  { sampleRecord 0 with query_text := "SELECT COUNT(*) FROM customers" }

/-- The LIKE leading-wildcard scenario SQL. -/
def likeRecord : SlowQueryInfo :=
  { sampleRecord 0 with query_text := "SELECT id FROM t WHERE name LIKE '%smith'" }

/-- A dynamically-typed record whose SQL text is `None`. -/
def nullSqlRecord : SlowQueryInfoN :=
  { query_id := "q0", query_text := none, database := "db", user := "u",
    execution_time := 0, scan_rows := 0, scan_bytes := 0, memory_used := 0,
    cpu_time := 0, start_time := 0, end_time := 0 }

/-- A dynamically-typed record carrying an actual SQL string. -/
def someSqlRecord : SlowQueryInfoN := { nullSqlRecord with query_text := some "SELECT 1" }

/-! ### Helper lemmas -/

lemma mem_ite_singleton {α : Type} {c : Prop} [Decidable c] {x p : α}
    (h : p ∈ (if c then [x] else [])) : p = x := by
  split at h
  · simpa using h
  · simp at h

lemma mem_analyze_execution_time {r : SlowQueryInfo} {p : QueryProblem}
    (h : p ∈ analyze_execution_time r) : p.problem_type = .FULL_TABLE_SCAN := by
  unfold analyze_execution_time at h
  split at h <;> [skip; split at h] <;> simp_all

lemma mem_analyze_scan_data {cfg : Thresholds} {r : SlowQueryInfo} {p : QueryProblem}
    (h : p ∈ analyze_scan_data cfg r) :
    p.problem_type = .TOO_MANY_ROWS ∨ p.problem_type = .MEMORY_INTENSIVE := by
  unfold analyze_scan_data at h
  rcases List.mem_append.mp h with h' | h'
  · rcases List.mem_append.mp h' with h'' | h''
    · left; rw [mem_ite_singleton h'']
    · left; rw [mem_ite_singleton h'']
  · right; rw [mem_ite_singleton h']

lemma mem_analyze_execution_plan {pl : String} {p : QueryProblem}
    (h : p ∈ analyze_execution_plan pl) : p.problem_type = .FULL_TABLE_SCAN := by
  simp only [analyze_execution_plan] at h
  split at h <;> simp_all

lemma gsfp_isSome (r : SlowQueryInfo) (p : QueryProblem) :
    (generate_suggestion_for_problem r p).isSome = recognizedB p.problem_type := by
  obtain ⟨pt, sev, d, sg, ev⟩ := p
  cases pt <;> rfl

lemma gsfp_category (r : SlowQueryInfo) (p : QueryProblem) :
    (generate_suggestion_for_problem r p).map (fun s => s.category) =
      if recognizedB p.problem_type then some (categoryFor p.problem_type) else none := by
  obtain ⟨pt, sev, d, sg, ev⟩ := p
  cases pt <;> rfl

lemma gsfp_original (r : SlowQueryInfo) (p : QueryProblem) (s : OptimizationSuggestion)
    (h : generate_suggestion_for_problem r p = some s) :
    s.original_sql = r.query_text := by
  obtain ⟨pt, sev, d, sg, ev⟩ := p
  cases pt <;> simp [generate_suggestion_for_problem, ProblemType.name] at h <;>
    (rw [← h]; rfl)

/-- C8: the derived severity attribute is CRITICAL for duration ≥ 10 s, HIGH on
[5, 10), MEDIUM on [1, 5), LOW below 1 s, and always one of those four values. -/
theorem severity_classification (r : SlowQueryInfo) :
    (10 ≤ r.execution_time → r.severity = "CRITICAL") ∧
    (5 ≤ r.execution_time ∧ r.execution_time < 10 → r.severity = "HIGH") ∧
    (1 ≤ r.execution_time ∧ r.execution_time < 5 → r.severity = "MEDIUM") ∧
    (r.execution_time < 1 → r.severity = "LOW") ∧
    (r.severity = "CRITICAL" ∨ r.severity = "HIGH" ∨
      r.severity = "MEDIUM" ∨ r.severity = "LOW") := by
  unfold SlowQueryInfo.severity
  refine ⟨?_, ?_, ?_, ?_, ?_⟩
  · intro h; rw [if_pos h]
  · rintro ⟨h1, h2⟩; rw [if_neg (not_le.mpr h2), if_pos h1]
  · rintro ⟨h1, h2⟩
    rw [if_neg (not_le.mpr (h2.trans (by norm_num))), if_neg (not_le.mpr h2), if_pos h1]
  · intro h
    rw [if_neg (not_le.mpr (h.trans (by norm_num))),
      if_neg (not_le.mpr (h.trans (by norm_num))), if_neg (not_le.mpr h)]
  · split_ifs <;> simp

/-- Witness for C8 at durations 12, 7, 3 and 0 seconds. -/
theorem severity_classification_witness :
    (sampleRecord 12).severity = "CRITICAL" ∧ (sampleRecord 7).severity = "HIGH" ∧
    (sampleRecord 3).severity = "MEDIUM" ∧ (sampleRecord 0).severity = "LOW" :=
  ⟨(severity_classification (sampleRecord 12)).1 (by norm_num [sampleRecord]),
   (severity_classification (sampleRecord 7)).2.1 (by norm_num [sampleRecord]),
   (severity_classification (sampleRecord 3)).2.2.1 (by norm_num [sampleRecord]),
   (severity_classification (sampleRecord 0)).2.2.2.1 (by norm_num [sampleRecord])⟩

/-- C4: `generate_suggestions` yields exactly one suggestion per problem of a
recognized type — so two problems of the same recognized type yield two
suggestions — and none for unrecognized types; each suggestion carries the
category the per-type mapping assigns. -/
theorem suggestion_multiplicity (r : SlowQueryInfo) (ps : List QueryProblem) :
    (generate_suggestions r ps).length =
      ps.countP (fun p => recognizedB p.problem_type) ∧
    (generate_suggestions r ps).map (fun s => s.category) =
      (ps.filter (fun p => recognizedB p.problem_type)).map
        (fun p => categoryFor p.problem_type) := by
  induction ps with
  | nil => exact ⟨rfl, rfl⟩
  | cons p t ih =>
    obtain ⟨ih1, ih2⟩ := ih
    have hs := gsfp_isSome r p
    have hc := gsfp_category r p
    simp only [generate_suggestions, List.filterMap_cons, List.countP_cons,
      List.filter_cons] at *
    cases h : generate_suggestion_for_problem r p with
    | none =>
      rw [h] at hs hc
      simp only [Option.isSome_none] at hs
      rw [← hs]
      simp only [if_false, Bool.false_eq_true, ite_false, add_zero]
      exact ⟨ih1, ih2⟩
    | some sg =>
      rw [h] at hs hc
      simp only [Option.isSome_some] at hs
      rw [← hs] at *
      simp only [if_true, ite_true, List.length_cons, List.map_cons]
      constructor
      · omega
      · simp at hc
        simp only [List.map_cons, ih2, hc]

/-- C9: the per-type mapping recognizes exactly the seven listed problem
types; a NO_WHERE_CLAUSE or MEMORY_INTENSIVE problem produces no suggestion. -/
theorem recognized_problem_types (r : SlowQueryInfo) (p : QueryProblem) :
    ((generate_suggestion_for_problem r p).isSome = true ↔
      p.problem_type ∈ recognized_types) ∧
    (p.problem_type = .NO_WHERE_CLAUSE ∨ p.problem_type = .MEMORY_INTENSIVE →
      generate_suggestions r [p] = []) := by
  constructor
  · rw [gsfp_isSome, recognizedB]
    exact decide_eq_true_iff
  · intro h
    have hnone : generate_suggestion_for_problem r p = none := by
      have hs := gsfp_isSome r p
      rcases h with h | h <;>
        (rw [h] at hs; simp only [recognizedB, recognized_types] at hs;
         rw [decide_eq_false (by simp)] at hs;
         exact Option.not_isSome_iff_eq_none.mp (by simp [hs]))
    simp [generate_suggestions, hnone]

/-- Witness for C9: a NO_WHERE_CLAUSE problem yields no suggestion, and the
recognition test instantiated at FULL_TABLE_SCAN. -/
theorem recognized_problem_types_witness :
    generate_suggestions (sampleRecord 0) [⟨.NO_WHERE_CLAUSE, "HIGH", "", "", ""⟩] = [] ∧
    ((generate_suggestion_for_problem (sampleRecord 0)
        ⟨.FULL_TABLE_SCAN, "CRITICAL", "", "", ""⟩).isSome = true ↔
      ProblemType.FULL_TABLE_SCAN ∈ recognized_types) :=
  ⟨(recognized_problem_types (sampleRecord 0) ⟨.NO_WHERE_CLAUSE, "HIGH", "", "", ""⟩).2
     (Or.inl rfl),
   (recognized_problem_types (sampleRecord 0) ⟨.FULL_TABLE_SCAN, "CRITICAL", "", "", ""⟩).1⟩

/-- C10: every suggestion returned references the record's raw SQL as its
`original_sql`, and the suggestion count never exceeds the problem count. -/
theorem suggester_output_invariant (r : SlowQueryInfo) (ps : List QueryProblem) :
    ((generate_suggestions r ps).all (fun s => s.original_sql == r.query_text)) = true ∧
    (generate_suggestions r ps).length ≤ ps.length := by
  constructor
  · simp only [List.all_eq_true]
    intro s hs
    simp only [generate_suggestions, List.mem_filterMap] at hs
    obtain ⟨p, _, hp⟩ := hs
    simpa [beq_iff_eq] using gsfp_original r p s hp
  · simpa [generate_suggestions] using List.length_filterMap_le
      (fun p => generate_suggestion_for_problem r p) ps

/-- C1: execution time ≥ 10 s puts a FULL_TABLE_SCAN/CRITICAL problem in the
detector output, a time in [5, 10) a FULL_TABLE_SCAN/HIGH problem, and below
5 s the execution-time pass emits nothing. -/
theorem execution_time_pass_thresholds (cfg : Thresholds) (r : SlowQueryInfo)
    (plan : Option String) :
    (10 ≤ r.execution_time →
      ∃ p ∈ analyze_query cfg r plan,
        p.problem_type = .FULL_TABLE_SCAN ∧ p.severity = "CRITICAL") ∧
    (5 ≤ r.execution_time ∧ r.execution_time < 10 →
      ∃ p ∈ analyze_query cfg r plan,
        p.problem_type = .FULL_TABLE_SCAN ∧ p.severity = "HIGH") ∧
    (r.execution_time < 5 → analyze_execution_time r = []) := by
  refine ⟨?_, ?_, ?_⟩
  · intro h
    have he : analyze_execution_time r = [⟨.FULL_TABLE_SCAN, "CRITICAL",
        "查询执行时间过长: " ++ fmt2 r.execution_time ++ " 秒",
        "检查是否有全表扫描，考虑添加索引或优化查询逻辑",
        "执行时间: " ++ fmt2 r.execution_time ++ "s"⟩] := by
      unfold analyze_execution_time
      rw [if_pos h]
    refine ⟨⟨.FULL_TABLE_SCAN, "CRITICAL",
        "查询执行时间过长: " ++ fmt2 r.execution_time ++ " 秒",
        "检查是否有全表扫描，考虑添加索引或优化查询逻辑",
        "执行时间: " ++ fmt2 r.execution_time ++ "s"⟩, ?_, rfl, rfl⟩
    simp only [analyze_query]
    rw [he]
    exact List.mem_append_left _ (List.mem_append_left _
      (List.mem_append_left _ (List.mem_singleton_self _)))
  · rintro ⟨h1, h2⟩
    have he : analyze_execution_time r = [⟨.FULL_TABLE_SCAN, "HIGH",
        "查询执行时间较长: " ++ fmt2 r.execution_time ++ " 秒",
        "分析查询计划，检查是否需要优化",
        "执行时间: " ++ fmt2 r.execution_time ++ "s"⟩] := by
      unfold analyze_execution_time
      rw [if_neg (not_le.mpr h2), if_pos h1]
    refine ⟨⟨.FULL_TABLE_SCAN, "HIGH",
        "查询执行时间较长: " ++ fmt2 r.execution_time ++ " 秒",
        "分析查询计划，检查是否需要优化",
        "执行时间: " ++ fmt2 r.execution_time ++ "s"⟩, ?_, rfl, rfl⟩
    simp only [analyze_query]
    rw [he]
    exact List.mem_append_left _ (List.mem_append_left _
      (List.mem_append_left _ (List.mem_singleton_self _)))
  · intro h
    unfold analyze_execution_time
    rw [if_neg (not_le.mpr (h.trans (by norm_num))), if_neg (not_le.mpr h)]

/-- Witness for C1 at execution times 12, 7 and 3 seconds. -/
theorem execution_time_pass_thresholds_witness :
    (∃ p ∈ analyze_query defaultThresholds (sampleRecord 12) none,
      p.problem_type = .FULL_TABLE_SCAN ∧ p.severity = "CRITICAL") ∧
    (∃ p ∈ analyze_query defaultThresholds (sampleRecord 7) none,
      p.problem_type = .FULL_TABLE_SCAN ∧ p.severity = "HIGH") ∧
    analyze_execution_time (sampleRecord 3) = [] :=
  ⟨(execution_time_pass_thresholds defaultThresholds (sampleRecord 12) none).1
     (by norm_num [sampleRecord]),
   (execution_time_pass_thresholds defaultThresholds (sampleRecord 7) none).2.1
     (by norm_num [sampleRecord]),
   (execution_time_pass_thresholds defaultThresholds (sampleRecord 3) none).2.2
     (by norm_num [sampleRecord])⟩

/-- C2 counterexample: with the default thresholds, a record whose row count
is at the threshold floor (0 rows) but whose scanned bytes exceed
`max_scan_bytes` still receives a TOO_MANY_ROWS problem from the scan-volume
pass, so "scan_rows at or below max_scan_rows never yields TOO_MANY_ROWS" is
false. -/
theorem scan_volume_rows_only_counterexample :
    scanBytesRecord.scan_rows ≤ defaultThresholds.max_scan_rows ∧
    ∃ p ∈ analyze_scan_data defaultThresholds scanBytesRecord,
      p.problem_type = .TOO_MANY_ROWS := by
  constructor
  · decide
  · decide

/-- C2 amended: rows above `max_scan_rows` put TOO_MANY_ROWS/HIGH in the
detector output; when both the row count and the byte count are at or below
their thresholds the scan-volume pass yields no TOO_MANY_ROWS problem. -/
theorem scan_volume_pass_amended (cfg : Thresholds) (r : SlowQueryInfo)
    (plan : Option String) :
    (r.scan_rows > cfg.max_scan_rows →
      ∃ p ∈ analyze_query cfg r plan,
        p.problem_type = .TOO_MANY_ROWS ∧ p.severity = "HIGH") ∧
    (r.scan_rows ≤ cfg.max_scan_rows ∧ r.scan_bytes ≤ cfg.max_scan_bytes →
      ∀ p ∈ analyze_scan_data cfg r, p.problem_type ≠ .TOO_MANY_ROWS) := by
  constructor
  · intro h
    refine ⟨⟨.TOO_MANY_ROWS, "HIGH",
        "扫描行数过多: " ++ r.scan_rows_formatted,
        "考虑添加合适的 WHERE 条件或索引，减少扫描行数",
        "扫描行数: " ++ toString r.scan_rows⟩, ?_, rfl, rfl⟩
    simp only [analyze_query, analyze_scan_data]
    rw [if_pos h]
    simp [List.mem_append]
  · rintro ⟨h1, h2⟩ p hp
    unfold analyze_scan_data at hp
    rw [if_neg (not_lt.mpr h1), if_neg (not_lt.mpr h2)] at hp
    simp only [List.nil_append] at hp
    rw [mem_ite_singleton hp]
    simp

/-- Witness for C2 amended: 20 M rows trigger TOO_MANY_ROWS/HIGH; the all-zero
record gets no TOO_MANY_ROWS from the scan-volume pass. -/
theorem scan_volume_pass_amended_witness :
    (∃ p ∈ analyze_query defaultThresholds scanRowsRecord none,
      p.problem_type = .TOO_MANY_ROWS ∧ p.severity = "HIGH") ∧
    (∀ p ∈ analyze_scan_data defaultThresholds (sampleRecord 0),
      p.problem_type ≠ .TOO_MANY_ROWS) :=
  ⟨(scan_volume_pass_amended defaultThresholds scanRowsRecord none).1 (by decide),
   (scan_volume_pass_amended defaultThresholds (sampleRecord 0) none).2
     ⟨by decide, by decide⟩⟩

/-- C3 counterexample: a record whose SQL text is `None` makes the detector
raise `AttributeError` (from `query_text.upper()`, evaluated before the
`try` block of `_analyze_sql_structure`) instead of returning normally. -/
theorem null_sql_raises_counterexample :
    analyze_queryN defaultThresholds nullSqlRecord none =
      Except.error PyExc.attributeError := rfl

/-- C3 amended: for every record whose SQL text is an actual string (empty
included) and every optional plan the detector returns normally; an empty SQL
text yields no structural-pass problems; and a record with all-zero metrics
yields no problems from the execution-time and scan-volume passes (default
thresholds).  A `None` SQL text instead raises. -/
theorem detector_total_amended (cfg : Thresholds) (r : SlowQueryInfoN)
    (plan : Option String) (s : String) (hs : r.query_text = some s)
    (rz : SlowQueryInfo) (h1 : rz.execution_time = 0) (h2 : rz.scan_rows = 0)
    (h3 : rz.scan_bytes = 0) (h4 : rz.memory_used = 0) :
    (∃ l, analyze_queryN cfg r plan = Except.ok l) ∧
    analyze_sql_structure "" = [] ∧
    analyze_execution_time rz = [] ∧
    analyze_scan_data defaultThresholds rz = [] := by
  refine ⟨?_, rfl, ?_, ?_⟩
  · unfold analyze_queryN
    rw [hs]
    exact ⟨_, rfl⟩
  · unfold analyze_execution_time
    rw [h1, if_neg (by norm_num), if_neg (by norm_num)]
  · unfold analyze_scan_data
    rw [h2, h3, h4, if_neg (by decide), if_neg (by decide), if_neg (by decide)]
    rfl

/-- Witness for C3 amended, at a record holding the string `SELECT 1` and the
all-zero sample record. -/
theorem detector_total_amended_witness :
    (∃ l, analyze_queryN defaultThresholds someSqlRecord none = Except.ok l) ∧
    analyze_sql_structure "" = [] ∧
    analyze_execution_time (sampleRecord 0) = [] ∧
    analyze_scan_data defaultThresholds (sampleRecord 0) = [] :=
  detector_total_amended defaultThresholds someSqlRecord none "SELECT 1" rfl
    (sampleRecord 0) rfl rfl rfl rfl

/-- C5 counterexample: on the canonical nested subquery
`SELECT * FROM (SELECT id FROM orders) t` the detector emits no
SUBQUERY_INEFFICIENT problem — `[^)]+` in `FROM\s*\([^)]+SELECT` demands at
least one character between the `(` and `SELECT`. -/
theorem subquery_no_space_counterexample :
    ProblemType.SUBQUERY_INEFFICIENT ∉
      (analyze_query defaultThresholds subqNoSpaceRecord none).map
        (fun p => p.problem_type) := by decide

/-- C5 amended: the detector emits a SUBQUERY_INEFFICIENT problem with
severity MEDIUM exactly when the upper-cased SQL matches the source pattern —
`FROM`, optional whitespace, `(`, then at least one non-`)` character before
the nested `SELECT` (e.g. `FROM ( SELECT ...`); in particular, with `SELECT`
directly after the `(` the pattern does not match and nothing is emitted. -/
theorem subquery_detection_amended (cfg : Thresholds) (r : SlowQueryInfo)
    (plan : Option String) :
    (∃ p ∈ analyze_query cfg r plan,
        p.problem_type = .SUBQUERY_INEFFICIENT ∧ p.severity = "MEDIUM") ↔
      hasSubquery (upperL r.query_text.data) = true := by
  constructor
  · rintro ⟨p, hp, hty, hsev⟩
    simp only [analyze_query, analyze_sql_structure, List.mem_append] at hp
    rcases hp with ((hp | hp) | hp) | hp
    · rw [mem_analyze_execution_time hp] at hty
      simp at hty
    · rcases mem_analyze_scan_data hp with h2 | h2 <;> rw [h2] at hty <;> simp at hty
    · by_cases hemp : r.query_text.data.isEmpty = true
      · rw [if_pos hemp] at hp
        simp at hp
      · rw [if_neg hemp] at hp
        simp only [List.mem_append] at hp
        rcases hp with ((((hp | hp) | hp) | hp) | hp) | hp
        · rw [mem_ite_singleton hp] at hty; simp at hty
        · rw [mem_ite_singleton hp] at hty; simp at hty
        · rw [mem_ite_singleton hp] at hty; simp at hty
        · cases hwc : whereCap (upperL r.query_text.data) with
          | none => rw [hwc] at hp; simp at hp
          | some cl => rw [hwc] at hp; rw [mem_ite_singleton hp] at hty; simp at hty
        · rw [mem_ite_singleton hp] at hty; simp at hty
        · rw [List.mem_ite_nil_right] at hp
          exact hp.1
    · cases plan with
      | none => simp at hp
      | some pl => rw [mem_analyze_execution_plan hp] at hty; simp at hty
  · intro h
    have hne : ¬ (r.query_text.data.isEmpty = true) := by
      intro hemp
      have hnil : r.query_text.data = [] := by simpa using hemp
      rw [hnil] at h
      exact absurd h (by decide)
    refine ⟨⟨.SUBQUERY_INEFFICIENT, "MEDIUM", "发现子查询，可能影响性能",
        "考虑使用 CTE (WITH 子句) 或 JOIN 替代子查询", "发现子查询"⟩, ?_, rfl, rfl⟩
    simp only [analyze_query, analyze_sql_structure]
    rw [if_neg hne, if_pos h]
    simp [List.mem_append]

/-- Witness for C5 amended, both directions: the spaced variant
`FROM ( SELECT ...` fires, the unspaced `FROM (SELECT ...` does not. -/
theorem subquery_detection_amended_witness :
    (∃ p ∈ analyze_query defaultThresholds subqSpacedRecord none,
      p.problem_type = .SUBQUERY_INEFFICIENT ∧ p.severity = "MEDIUM") ∧
    ¬ (∃ p ∈ analyze_query defaultThresholds subqNoSpaceRecord none,
      p.problem_type = .SUBQUERY_INEFFICIENT ∧ p.severity = "MEDIUM") :=
  ⟨(subquery_detection_amended defaultThresholds subqSpacedRecord none).mpr (by decide),
   fun hex => absurd
     ((subquery_detection_amended defaultThresholds subqNoSpaceRecord none).mp hex)
     (by decide)⟩

/-- C6: when the upper-cased SQL starts with SELECT and contains neither
WHERE nor JOIN, the detector emits NO_WHERE_CLAUSE/HIGH exactly when the
text contains no COUNT/SUM/AVG/MAX/MIN call. -/
theorem no_where_clause_rule (cfg : Thresholds) (r : SlowQueryInfo) (plan : Option String)
    (hsel : ("SELECT".data).isPrefixOf (upperL r.query_text.data) = true)
    (hw : containsSub "WHERE".data (upperL r.query_text.data) = false)
    (hj : containsSub "JOIN".data (upperL r.query_text.data) = false) :
    (∃ p ∈ analyze_query cfg r plan,
        p.problem_type = .NO_WHERE_CLAUSE ∧ p.severity = "HIGH") ↔
      hasAggCall (upperL r.query_text.data) = false := by
  have hne : ¬ (r.query_text.data.isEmpty = true) := by
    intro hemp
    have hnil : r.query_text.data = [] := by simpa using hemp
    rw [hnil] at hsel
    exact absurd hsel (by decide)
  constructor
  · rintro ⟨p, hp, hty, hsev⟩
    simp only [analyze_query, analyze_sql_structure, List.mem_append] at hp
    rcases hp with ((hp | hp) | hp) | hp
    · rw [mem_analyze_execution_time hp] at hty
      simp at hty
    · rcases mem_analyze_scan_data hp with h2 | h2 <;> rw [h2] at hty <;> simp at hty
    · rw [if_neg hne] at hp
      simp only [List.mem_append] at hp
      rcases hp with ((((hp | hp) | hp) | hp) | hp) | hp
      · rw [mem_ite_singleton hp] at hty; simp at hty
      · rw [mem_ite_singleton hp] at hty; simp at hty
      · rw [mem_ite_singleton hp] at hty; simp at hty
      · cases hwc : whereCap (upperL r.query_text.data) with
        | none => rw [hwc] at hp; simp at hp
        | some cl => rw [hwc] at hp; rw [mem_ite_singleton hp] at hty; simp at hty
      · rw [List.mem_ite_nil_right] at hp
        have hc5 := hp.1
        simp only [Bool.and_eq_true, Bool.not_eq_true'] at hc5
        exact hc5.2
      · rw [mem_ite_singleton hp] at hty; simp at hty
    · cases plan with
      | none => simp at hp
      | some pl => rw [mem_analyze_execution_plan hp] at hty; simp at hty
  · intro hagg
    refine ⟨⟨.NO_WHERE_CLAUSE, "HIGH", "SELECT 查询缺少 WHERE 条件",
        "添加 WHERE 条件限制数据范围，避免全表扫描", "缺少 WHERE 条件"⟩, ?_, rfl, rfl⟩
    simp only [analyze_query, analyze_sql_structure]
    rw [if_neg hne]
    have hc5 : (("SELECT".data).isPrefixOf (upperL r.query_text.data) &&
        !containsSub "WHERE".data (upperL r.query_text.data) &&
        !containsSub "JOIN".data (upperL r.query_text.data) &&
        !hasAggCall (upperL r.query_text.data)) = true := by
      rw [hsel, hw, hj, hagg]
      rfl
    rw [if_pos hc5]
    simp [List.mem_append]

/-- Witness for C6: `SELECT name FROM customers` receives NO_WHERE_CLAUSE/HIGH
while `SELECT COUNT(*) FROM customers` does not. -/
theorem no_where_clause_rule_witness :
    (∃ p ∈ analyze_query defaultThresholds noWhereRecord none,
        p.problem_type = .NO_WHERE_CLAUSE ∧ p.severity = "HIGH") ∧
    ¬ (∃ p ∈ analyze_query defaultThresholds aggRecord none,
        p.problem_type = .NO_WHERE_CLAUSE ∧ p.severity = "HIGH") :=
  ⟨(no_where_clause_rule defaultThresholds noWhereRecord none
      (by decide) (by decide) (by decide)).mpr (by decide),
   fun hex => absurd ((no_where_clause_rule defaultThresholds aggRecord none
      (by decide) (by decide) (by decide)).mp hex) (by decide)⟩

/-- C7: on `SELECT id FROM t WHERE name LIKE '%smith'` the detector emits
LIKE_PREFIX_WILDCARD/HIGH, and the suggestion generated for that problem has
the rewritten fragment with `LIKE '%` replaced by `LIKE '`, category QUERY
and priority HIGH. -/
theorem like_wildcard_scenario :
    ∃ p ∈ analyze_query defaultThresholds likeRecord none,
      p.problem_type = .LIKE_PREFIX_WILDCARD ∧ p.severity = "HIGH" ∧
      (generate_suggestion_for_problem likeRecord p).map (fun s => s.suggested_sql) =
        some (some "SELECT id FROM t WHERE name LIKE 'smith'") ∧
      (generate_suggestion_for_problem likeRecord p).map (fun s => s.category) =
        some "QUERY" ∧
      (generate_suggestion_for_problem likeRecord p).map (fun s => s.priority) =
        some "HIGH" := by
  decide
